import Mathlib

set_option maxRecDepth 8000

/-!
Verification development for the payment-allocation decision engine of the
walmart-agent repository (`src/finance_brain.py`).

The engine is shallowly embedded: Python floats holding currency amounts are
modelled as rationals (`ℚ`), `round(x, 2)` as `round2`, datetimes as integer
day numbers (days since 1970-01-01) with `strfDate` implementing
`strftime("%Y-%m-%d")` via the standard civil-from-days calendar algorithm,
and exceptions (`raise ValueError("User not found: ...")`) as `Option`
results (`none` = the call raised).  The user-profile store
(`self.users`, loaded from JSON) is modelled as an association list from user
id to profile.  `dateutil.parser.parse` is external; a bill record therefore
carries both its raw date string (used verbatim by the calendar builder) and
its parsed day number (used for window comparisons).
-/

/-- `CartItem` dataclass from `finance_brain.py`. -/
structure CartItem where
  name : String
  price : ℚ
  category : String
  bnpl_eligible : Bool
  is_essential : Bool
deriving DecidableEq, Repr

/-- `PaymentPlan` dataclass. -/
structure PaymentPlan where
  installments : ℕ
  interval_weeks : ℕ
  interval_months : ℕ
  fee_percent : ℚ
deriving DecidableEq, Repr

/-- `PaymentRecommendation` dataclass. -/
structure PaymentRecommendation where
  item : CartItem
  strategy : String
  reason : String
  payment_plan : Option PaymentPlan
  installment_amount : ℚ
  payment_dates : List String
deriving DecidableEq, Repr

/-- `CartOptimization` dataclass. -/
structure CartOptimization where
  pay_now_items : List CartItem
  bnpl_items : List CartItem
  pay_now_total : ℚ
  bnpl_total : ℚ
  monthly_bnpl_payment : ℚ
  recommendations : List PaymentRecommendation
  summary : String
  warnings : List String
  projected_balance : ℚ
deriving DecidableEq, Repr

/-- An upcoming-bill record of a user profile.  `due_date_str` is the raw
string stored in the JSON profile (passed through verbatim to calendar
events); `due_day` is the day number that `dateutil.parser.parse` yields for
it, used in the look-ahead window comparison. -/
structure Bill where
  name : String
  amount : ℚ
  due_date_str : String
  due_day : ℤ
deriving DecidableEq, Repr

/-- A `next_paycheck` record of a user profile; `date` is the parsed day
number of the stored date string. -/
structure Paycheck where
  date : ℤ
  amount : ℚ
deriving DecidableEq, Repr

/-- A user profile from the mock user database. -/
structure UserProfile where
  name : String
  bank_balance : ℚ
  upcoming_bills : List Bill
  next_paycheck : Option Paycheck
  credit_tier : String
  bnpl_eligible : Bool
deriving DecidableEq, Repr

/-- The profile store `self.users` (a dict from user id to profile). -/
abbrev ProfileDB := List (String × UserProfile)

/-- One entry of the `upcoming_bills` list inside the dictionary returned by
`calculate_available_funds`: keys `name`, `amount`, `due_date` (the raw
string), `days_until`. -/
structure SnapBill where
  name : String
  amount : ℚ
  due_date : String
  days_until : ℤ
deriving DecidableEq, Repr

/-- The dictionary returned by `calculate_available_funds` (the spec calls it
the FinancialSnapshot). -/
structure FinancialSnapshot where
  current_balance : ℚ
  upcoming_bills : List SnapBill
  total_bills : ℚ
  paycheck_expected : ℚ
  paycheck_date : Option String
  projected_balance : ℚ
  available_for_spending : ℚ
  safe_bnpl_installment : ℚ
  credit_tier : String
  bnpl_eligible : Bool
deriving DecidableEq, Repr

/-- The dictionary returned by `calculate_bnpl_plan`. -/
structure BnplPlan where
  total_amount : ℚ
  installments : ℕ
  installment_amount : ℚ
  payments : List ℚ
  payment_dates : List String
  fee : ℚ
  total_cost : ℚ
deriving DecidableEq, Repr

/-- A calendar event dictionary produced by `get_payment_calendar`.  The
`balance_after` and `items` keys are only present on some events; absent keys
are modelled as `none`. -/
structure Event where
  date : String
  type : String
  description : String
  amount : ℚ
  balance_after : Option ℚ
  items : Option (List String)
deriving DecidableEq, Repr

/-- Output accumulated by the discretionary-item loop of `optimize_cart`:
recommendations, warnings and the two partitions, each in append order. -/
structure DiscOut where
  recs : List PaymentRecommendation
  warns : List String
  payNow : List CartItem
  bnpl : List CartItem
deriving DecidableEq, Repr

/-- Python `round(x, 2)` on a currency amount: round to the nearest cent
(`round` resolves the, in practice unreachable, exact half-cent ties upward
where CPython resolves them by the binary float representation). -/
def round2 (q : ℚ) : ℚ := (round (100 * q) : ℚ) / 100

/-- A currency amount that is a whole number of cents (the value domain of
prices in the user database and carts). -/
def WholeCents (q : ℚ) : Prop := (100 * q).den = 1

instance (q : ℚ) : Decidable (WholeCents q) := by
  unfold WholeCents
  infer_instance

/-- Zero-pad a natural number to `w` digits, as `strftime` does. -/
def padNum (w : ℕ) (n : ℕ) : String :=
  let s := toString n
  String.mk (List.replicate (w - s.length) '0') ++ s

/-- Python `f"{n:.2f}"` on a whole-cent-rounded value: fixed two decimal
places. -/
def fmt2 (q : ℚ) : String :=
  if q < 0 then "-" ++ fmt2Core (round (100 * (-q))).toNat else fmt2Core (round (100 * q)).toNat
where
  fmt2Core (c : ℕ) : String := toString (c / 100) ++ "." ++ padNum 2 (c % 100)

/-- Convert a day number (days since 1970-01-01) to a civil Gregorian date
`(year, month, day)`; the standard civil-from-days algorithm used by C++ and
Python date libraries. -/
def civilFromDays (z0 : ℤ) : ℤ × ℤ × ℤ :=
  let z := z0 + 719468
  let e := z.fdiv 146097
  let doe := z - e * 146097
  let yoe := (doe - doe / 1460 + doe / 36524 - doe / 146096) / 365
  let y := yoe + e * 400
  let doy := doe - (365 * yoe + yoe / 4 - yoe / 100)
  let mp := (5 * doy + 2) / 153
  let d := doy - (153 * mp + 2) / 5 + 1
  let m := mp + (if mp < 10 then 3 else -9)
  (y + (if m ≤ 2 then 1 else 0), m, d)

/-- `datetime.strftime("%Y-%m-%d")` on a day number. -/
def strfDate (z : ℤ) : String :=
  let c := civilFromDays z
  padNum 4 c.1.toNat ++ "-" ++ padNum 2 c.2.1.toNat ++ "-" ++ padNum 2 c.2.2.toNat

/-- `datetime.isoformat()` of a midnight datetime (what
`calculate_available_funds` stores under `paycheck_date`): the canonical date
followed by the `T00:00:00` time part. -/
def isoMidnight (z : ℤ) : String := strfDate z ++ "T00:00:00"

/-- Whether a string has the canonical `YYYY-MM-DD` shape (ten characters,
digits and two dashes). -/
def isCanonicalDate (s : String) : Bool :=
  match s.data with
  | [y1, y2, y3, y4, s1, m1, m2, s2, d1, d2] =>
    y1.isDigit && y2.isDigit && y3.isDigit && y4.isDigit && (s1 = '-') &&
      m1.isDigit && m2.isDigit && (s2 = '-') && d1.isDigit && d2.isDigit
  | _ => false

/-- `FinanceBrainAgent.ESSENTIAL_CATEGORIES`. -/
def ESSENTIAL_CATEGORIES : List String :=
  ["Groceries", "Baby & Kids", "Health & Beauty", "Medicine"]

/-- `FinanceBrainAgent.BNPL_MIN_AMOUNT`. -/
def BNPL_MIN_AMOUNT : ℚ := 35

/-- `FinanceBrainAgent.BNPL_MAX_AMOUNT`. -/
def BNPL_MAX_AMOUNT : ℚ := 2000

/-- The classifier's side effect on an item: `item.is_essential` is set to
whether its category is in the fixed essential set. -/
def markEssential (it : CartItem) : CartItem :=
  { it with is_essential := decide (it.category ∈ ESSENTIAL_CATEGORIES) }

/-- `FinanceBrainAgent.classify_items`: order-preserving partition of a cart
into the essential/pay-now list and the discretionary (BNPL candidate) list.
A non-essential item is a candidate iff it is itself BNPL-eligible and its
price is at least `BNPL_MIN_AMOUNT`; otherwise it falls back to the first
list. -/
def classify_items : List CartItem → List CartItem × List CartItem
  | [] => ([], [])
  | it :: rest =>
    let res := classify_items rest
    let it2 := markEssential it
    if it.category ∈ ESSENTIAL_CATEGORIES then (it2 :: res.1, res.2)
    else if it.bnpl_eligible = true ∧ BNPL_MIN_AMOUNT ≤ it.price then (res.1, it2 :: res.2)
    else (it2 :: res.1, res.2)

/-- `FinanceBrainAgent.calculate_bnpl_plan`: even split rounded to the cent,
with the final payment set to `round(amount - sum(previous), 2)`; payment
dates every two weeks starting today. -/
def calculate_bnpl_plan (today : ℤ) (amount : ℚ) (installments : ℕ) : BnplPlan :=
  let installment_amount := round2 (amount / installments)
  let firsts := List.replicate (installments - 1) installment_amount
  let payments := firsts ++ [round2 (amount - firsts.sum)]
  let dates := (List.range installments).map (fun i => strfDate (today + 14 * i))
  ⟨amount, installments, installment_amount, payments, dates, 0, amount⟩

/-- Constructs the snapshot dictionary of `calculate_available_funds` from a
profile and the current day (the successful path, after the user lookup). -/
def buildSnapshot (today window : ℤ) (u : UserProfile) : FinancialSnapshot :=
  let cutoff := today + window
  let bills := u.upcoming_bills.filter (fun b => today ≤ b.due_day ∧ b.due_day ≤ cutoff)
  let upcoming := bills.map (fun b => SnapBill.mk b.name b.amount b.due_date_str (b.due_day - today))
  let total_bills := (bills.map (fun b => b.amount)).sum
  let pc_amount : ℚ :=
    match u.next_paycheck with
    | some p => if today ≤ p.date ∧ p.date ≤ cutoff then p.amount else 0
    | none => 0
  let pc_date : Option String := u.next_paycheck.map (fun p => isoMidnight p.date)
  let projected := u.bank_balance - total_bills + pc_amount
  let buffer := u.bank_balance * (1 / 10)
  let available := max 0 (u.bank_balance - total_bills - buffer)
  let safe := available * (1 / 4)
  ⟨u.bank_balance, upcoming, total_bills, pc_amount, pc_date, round2 projected,
    round2 available, round2 safe, u.credit_tier, u.bnpl_eligible⟩

/-- `FinanceBrainAgent.calculate_available_funds`: `none` models the
`ValueError("User not found")` raised when the profile lookup misses. -/
def calculate_available_funds (db : ProfileDB) (today : ℤ) (uid : String) (window : ℤ) :
    Option FinancialSnapshot :=
  (List.lookup uid db).map (buildSnapshot today window)

/-- Recommendation built for every essential-partition item. -/
def essentialRec (it : CartItem) : PaymentRecommendation :=
  ⟨it, "PAY_NOW", it.category ++ " items are essential and should be paid immediately.",
    none, 0, []⟩

/-- Recommendation of rule (a): the account is not BNPL-eligible. -/
def recNotEligible (it : CartItem) : PaymentRecommendation :=
  ⟨it, "PAY_NOW", "BNPL not available for your account.", none, 0, []⟩

/-- Recommendation of rule (b): the item price exceeds `BNPL_MAX_AMOUNT`
(Python renders the float constant as `2000.0` inside the reason). -/
def recOverMax (it : CartItem) : PaymentRecommendation :=
  ⟨it, "PAY_NOW", "Item exceeds BNPL limit of $2000.0.", none, 0, []⟩

/-- Recommendation of rule (c): essentials already exceed available funds. -/
def recTightBudget (today : ℤ) (it : CartItem) : PaymentRecommendation :=
  let plan := calculate_bnpl_plan today it.price 4
  ⟨it, "BNPL",
    "Your essential purchases already exceed available funds. BNPL helps preserve cash for necessities.",
    some ⟨4, 2, 0, 0⟩, plan.installment_amount, plan.payment_dates⟩

/-- Recommendation of rule (d): paying now would breach the buffer. -/
def recBufferBreach (today : ℤ) (avail essTot : ℚ) (it : CartItem) : PaymentRecommendation :=
  let plan := calculate_bnpl_plan today it.price 4
  ⟨it, "BNPL",
    "Paying now would leave you with only $" ++ fmt2 (avail - essTot - it.price) ++
      ". Use BNPL to maintain a safety buffer.",
    some ⟨4, 2, 0, 0⟩, plan.installment_amount, plan.payment_dates⟩

/-- Recommendation of rule (e): the installment fits the safe ceiling. -/
def recComfortable (today : ℤ) (it : CartItem) : PaymentRecommendation :=
  let plan := calculate_bnpl_plan today it.price 4
  ⟨it, "BNPL",
    "At $" ++ fmt2 plan.installment_amount ++
      " per payment, this fits comfortably in your budget while preserving cash for unexpected expenses.",
    some ⟨4, 2, 0, 0⟩, plan.installment_amount, plan.payment_dates⟩

/-- Recommendation of rule (f): sufficient funds, pay now. -/
def recSufficient (it : CartItem) : PaymentRecommendation :=
  ⟨it, "PAY_NOW", "You have sufficient funds. Paying now avoids future obligations.", none, 0, []⟩

/-- The discretionary-item loop of `optimize_cart`: the priority-ordered
if/elif chain, evaluated per item in cart order, accumulating
recommendations, warnings and the two partitions. -/
def discLoop (elig : Bool) (today : ℤ) (essTot avail safe : ℚ) :
    List CartItem → DiscOut
  | [] => ⟨[], [], [], []⟩
  | it :: rest =>
    let o := discLoop elig today essTot avail safe rest
    if elig = false then
      ⟨recNotEligible it :: o.recs, o.warns, it :: o.payNow, o.bnpl⟩
    else if BNPL_MAX_AMOUNT < it.price then
      ⟨recOverMax it :: o.recs, (it.name ++ " exceeds BNPL maximum amount.") :: o.warns,
        it :: o.payNow, o.bnpl⟩
    else if avail < essTot then
      ⟨recTightBudget today it :: o.recs,
        "Budget is tight! Consider if all items are necessary." :: o.warns,
        o.payNow, it :: o.bnpl⟩
    else if avail < essTot + it.price then
      ⟨recBufferBreach today avail essTot it :: o.recs, o.warns, o.payNow, it :: o.bnpl⟩
    else if it.price / 4 ≤ safe then
      ⟨recComfortable today it :: o.recs, o.warns, o.payNow, it :: o.bnpl⟩
    else
      ⟨recSufficient it :: o.recs, o.warns, it :: o.payNow, o.bnpl⟩

/-- Overdraft warning appended when the projected balance is negative. -/
def overdraftWarning (projected : ℚ) : String :=
  "⚠ Warning: This purchase would overdraw your account by $" ++ fmt2 |projected| ++ "!"

/-- Caution warning appended when the projected balance is below $100. -/
def cautionWarning (projected : ℚ) : String :=
  "⚠ Caution: This would leave only $" ++ fmt2 projected ++ " in your account."

/-- `FinanceBrainAgent._generate_summary`, rule-based path (the LLM path is
the optional external collaborator and is off by default). -/
def generateSummary (u : UserProfile) (fin : FinancialSnapshot)
    (payNowItems bnplItems : List CartItem)
    (payNowTotal bnplTotal projected : ℚ) : String :=
  if bnplItems = [] then
    "✅ Great news! You can comfortably pay $" ++ fmt2 payNowTotal ++
      " for all items today.\nYour projected balance after this purchase: $" ++ fmt2 projected
  else
    let p1 := "💡 **Smart Payment Strategy for " ++ u.name ++ "**\n" ++
      "**Today\x27s Payment:** $" ++ fmt2 payNowTotal ++ " for essentials (" ++
      toString payNowItems.length ++ " items)\n" ++
      "**BNPL Items:** $" ++ fmt2 bnplTotal ++ " split into 4 payments of $" ++
      fmt2 (bnplTotal / 4) ++ " every 2 weeks\n"
    let p2 := p1 ++ "\n📦 **Financing:** " ++
      String.intercalate ", " ((bnplItems.take 3).map (fun it => it.name)) ++ "\n"
    if 0 < fin.paycheck_expected then
      p2 ++ "\n💰 With your next paycheck of $" ++ fmt2 fin.paycheck_expected ++
        " coming on " ++ fin.paycheck_date.getD "None" ++
        ", this strategy ensures you have enough for rent and bills while getting everything you need today."
    else p2

/-- Local variable `essential` of `optimize_cart`. -/
def essentialsOf (items : List CartItem) : List CartItem := (classify_items items).1

/-- Local variable `discretionary` of `optimize_cart`. -/
def discretionaryOf (items : List CartItem) : List CartItem := (classify_items items).2

/-- Local variable `essential_total` of `optimize_cart`. -/
def essentialTotalOf (items : List CartItem) : ℚ :=
  ((essentialsOf items).map (fun it => it.price)).sum

/-- The accumulated output of the discretionary loop of `optimize_cart`
(given the snapshot that supplies `available` and `safe_installment`). -/
def discOutOf (today : ℤ) (fin : FinancialSnapshot) (items : List CartItem) : DiscOut :=
  discLoop fin.bnpl_eligible today (essentialTotalOf items)
    fin.available_for_spending fin.safe_bnpl_installment (discretionaryOf items)

/-- Local variable `pay_now_items` of `optimize_cart` (essential items are
appended first, then discretionary items resolved to PAY_NOW, in loop
order). -/
def payNowItemsOf (today : ℤ) (fin : FinancialSnapshot) (items : List CartItem) :
    List CartItem :=
  essentialsOf items ++ (discOutOf today fin items).payNow

/-- Local variable `bnpl_items` of `optimize_cart`. -/
def bnplItemsOf (today : ℤ) (fin : FinancialSnapshot) (items : List CartItem) :
    List CartItem :=
  (discOutOf today fin items).bnpl

/-- Local variable `pay_now_total` of `optimize_cart` (exact, before the
final `round(x, 2)`). -/
def payNowTotalOf (today : ℤ) (fin : FinancialSnapshot) (items : List CartItem) : ℚ :=
  ((payNowItemsOf today fin items).map (fun it => it.price)).sum

/-- Local variable `bnpl_total` of `optimize_cart` (exact, before the final
`round(x, 2)`). -/
def bnplTotalOf (today : ℤ) (fin : FinancialSnapshot) (items : List CartItem) : ℚ :=
  ((bnplItemsOf today fin items).map (fun it => it.price)).sum

/-- Local variable `monthly_bnpl` of `optimize_cart`:
`bnpl_total / 4 if bnpl_items else 0`. -/
def monthlyBnplOf (today : ℤ) (fin : FinancialSnapshot) (items : List CartItem) : ℚ :=
  if bnplItemsOf today fin items = [] then 0 else bnplTotalOf today fin items / 4

/-- Local variable `projected` of `optimize_cart`:
`finances["current_balance"] - (pay_now_total + monthly_bnpl)`. -/
def projectedOf (today : ℤ) (fin : FinancialSnapshot) (items : List CartItem) : ℚ :=
  fin.current_balance - (payNowTotalOf today fin items + monthlyBnplOf today fin items)

/-- The full warning list of `optimize_cart`: the warnings accumulated in the
discretionary loop, then the overdraft warning (projected balance negative)
or, failing that, the caution warning (projected balance below $100). -/
def warningsOf (today : ℤ) (fin : FinancialSnapshot) (items : List CartItem) : List String :=
  (discOutOf today fin items).warns ++
    (if projectedOf today fin items < 0 then [overdraftWarning (projectedOf today fin items)]
     else if projectedOf today fin items < 100 then [cautionWarning (projectedOf today fin items)]
     else [])

/-- The body of `optimize_cart` after both lookups have succeeded. -/
def optimizeCore (today : ℤ) (fin : FinancialSnapshot) (u : UserProfile)
    (items : List CartItem) : CartOptimization :=
  ⟨payNowItemsOf today fin items, bnplItemsOf today fin items,
    round2 (payNowTotalOf today fin items), round2 (bnplTotalOf today fin items),
    round2 (monthlyBnplOf today fin items),
    (essentialsOf items).map essentialRec ++ (discOutOf today fin items).recs,
    generateSummary u fin (payNowItemsOf today fin items) (bnplItemsOf today fin items)
      (payNowTotalOf today fin items) (bnplTotalOf today fin items)
      (projectedOf today fin items),
    warningsOf today fin items, round2 (projectedOf today fin items)⟩

/-- `FinanceBrainAgent.optimize_cart`: fetches the snapshot (which raises on
a missing user), re-checks the user, then runs the decision core. -/
def optimize_cart (db : ProfileDB) (today : ℤ) (uid : String) (items : List CartItem) :
    Option CartOptimization :=
  match calculate_available_funds db today uid 30 with
  | none => none
  | some fin =>
    match List.lookup uid db with
    | none => none
    | some u => some (optimizeCore today fin u items)

/-- Order on calendar events used by `events.sort(key=lambda x: x["date"])`:
compare the date strings. -/
def dateLe (a b : Event) : Prop := a.date ≤ b.date

instance : DecidableRel dateLe := fun a b => by
  unfold dateLe
  infer_instance

instance : IsTotal Event dateLe := ⟨fun a b => le_total a.date b.date⟩

instance : IsTrans Event dateLe := ⟨fun _ _ _ h1 h2 => le_trans h1 h2⟩

/-- `FinanceBrainAgent.get_payment_calendar`: builds the pay-now event, the
four BNPL events (when any item was deferred), one event per upcoming bill
(with the raw profile date string) and the paycheck INCOME event, then sorts
by date string.  Python list sort is stable; `List.insertionSort` is a stable
sort, so the embedding matches observable behaviour. -/
def calendarEventsOf (today : ℤ) (fin : FinancialSnapshot)
    (optimization : CartOptimization) : List Event :=
  let first : Event :=
    ⟨strfDate today, "PAYMENT", "Cart Purchase - Pay Now Items",
      -optimization.pay_now_total,
      some (fin.current_balance - optimization.pay_now_total), none⟩
  let bnplEvents : List Event :=
    if optimization.bnpl_items = [] then []
    else
      (List.range 4).map (fun i =>
        ⟨strfDate (today + 14 * i), "BNPL_PAYMENT",
          "BNPL Payment " ++ toString (i + 1) ++ "/4",
          -(optimization.bnpl_total / 4), none,
          some (optimization.bnpl_items.map (fun it => it.name))⟩)
  let billEvents : List Event :=
    fin.upcoming_bills.map (fun b => ⟨b.due_date, "BILL", b.name, -b.amount, none, none⟩)
  let incomeEvents : List Event :=
    match fin.paycheck_date with
    | some d => [⟨d, "INCOME", "Paycheck", fin.paycheck_expected, none, none⟩]
    | none => []
  first :: (bnplEvents ++ billEvents ++ incomeEvents)

def get_payment_calendar (db : ProfileDB) (today : ℤ) (uid : String)
    (optimization : CartOptimization) : Option (List Event) :=
  match calculate_available_funds db today uid 30 with
  | none => none
  | some fin => some (List.insertionSort dateLe (calendarEventsOf today fin optimization))

/-- Raw item data consumed by the helper `create_cart_items`; each key of the
source dictionaries may be absent (`dict.get` defaults). -/
structure RawItem where
  name : Option String
  price : Option ℚ
  category : Option String
  bnpl_eligible : Option Bool
deriving DecidableEq, Repr

/-- `create_cart_items` helper: builds `CartItem`s with defaults and, notably,
no validation of the price. -/
def create_cart_items (items_data : List RawItem) : List CartItem :=
  items_data.map (fun r =>
    ⟨r.name.getD "Unknown Item", r.price.getD 0, r.category.getD "General",
      r.bnpl_eligible.getD true, false⟩)

/-! ## Helper lemmas -/

theorem wholeCents_iff (q : ℚ) : WholeCents q ↔ ∃ z : ℤ, 100 * q = (z : ℚ) := by
  constructor
  · intro h
    exact ⟨(100 * q).num, ((100 * q).den_eq_one_iff.mp h).symm⟩
  · rintro ⟨z, hz⟩
    unfold WholeCents
    rw [hz]
    exact Rat.den_intCast z

theorem WholeCents.add {a b : ℚ} (ha : WholeCents a) (hb : WholeCents b) :
    WholeCents (a + b) := by
  rw [wholeCents_iff] at ha hb ⊢
  obtain ⟨x, hx⟩ := ha
  obtain ⟨y, hy⟩ := hb
  exact ⟨x + y, by push_cast; rw [mul_add, hx, hy]⟩

theorem WholeCents.neg {a : ℚ} (ha : WholeCents a) : WholeCents (-a) := by
  rw [wholeCents_iff] at ha ⊢
  obtain ⟨x, hx⟩ := ha
  exact ⟨-x, by push_cast; rw [mul_neg, hx]⟩

theorem WholeCents.sub {a b : ℚ} (ha : WholeCents a) (hb : WholeCents b) :
    WholeCents (a - b) := by
  rw [sub_eq_add_neg]
  exact ha.add hb.neg

theorem wholeCents_zero : WholeCents 0 := by
  rw [wholeCents_iff]
  exact ⟨0, by norm_num⟩

theorem wholeCents_sum (l : List ℚ) (h : ∀ x ∈ l, WholeCents x) : WholeCents l.sum := by
  induction l with
  | nil => simpa using wholeCents_zero
  | cons a t ih =>
    rw [List.sum_cons]
    exact (h a (List.mem_cons_self a t)).add (ih fun x hx => h x (List.mem_cons_of_mem a hx))

theorem round2_eq_self {q : ℚ} (h : WholeCents q) : round2 q = q := by
  rw [wholeCents_iff] at h
  obtain ⟨z, hz⟩ := h
  unfold round2
  rw [hz, round_intCast]
  field_simp at hz ⊢
  linarith [hz]

theorem wholeCents_round2 (q : ℚ) : WholeCents (round2 q) := by
  rw [wholeCents_iff]
  refine ⟨round (100 * q), ?_⟩
  unfold round2
  field_simp

@[simp]
theorem markEssential_price (it : CartItem) : (markEssential it).price = it.price := rfl

@[simp]
theorem markEssential_category (it : CartItem) : (markEssential it).category = it.category := rfl

@[simp]
theorem markEssential_name (it : CartItem) : (markEssential it).name = it.name := rfl

theorem classify_items_perm (l : List CartItem) :
    List.Perm ((classify_items l).1 ++ (classify_items l).2) (l.map markEssential) := by
  induction l with
  | nil => simp [classify_items]
  | cons it rest ih =>
    simp only [classify_items, List.map_cons]
    split_ifs with h1 h2
    · exact List.Perm.cons _ ih
    · exact List.Perm.trans List.perm_middle (List.Perm.cons _ ih)
    · exact List.Perm.cons _ ih

theorem classify_items_snd_not_essential (l : List CartItem) :
    ∀ it ∈ (classify_items l).2, it.category ∉ ESSENTIAL_CATEGORIES := by
  induction l with
  | nil => simp [classify_items]
  | cons it rest ih =>
    simp only [classify_items]
    split_ifs with h1 h2
    · exact ih
    · intro x hx
      rcases List.mem_cons.mp hx with h | h
      · subst h
        simpa using h1
      · exact ih x h
    · exact ih

theorem classify_items_fst_mem {l : List CartItem} {it : CartItem} (hmem : it ∈ l)
    (h : it.category ∈ ESSENTIAL_CATEGORIES ∨ ¬(it.bnpl_eligible = true ∧ BNPL_MIN_AMOUNT ≤ it.price)) :
    markEssential it ∈ (classify_items l).1 := by
  induction l with
  | nil => cases hmem
  | cons a rest ih =>
    simp only [classify_items]
    rcases List.mem_cons.mp hmem with heq | htail
    · subst heq
      rcases h with hcat | hfall
      · rw [if_pos hcat]
        exact List.mem_cons_self _ _
      · split_ifs with h1 <;> exact List.mem_cons_self _ _
    · split_ifs with h1 h2
      · exact List.mem_cons_of_mem _ (ih htail)
      · exact ih htail
      · exact List.mem_cons_of_mem _ (ih htail)

theorem classify_items_snd_mem {l : List CartItem} {it : CartItem} (hmem : it ∈ l)
    (hcat : it.category ∉ ESSENTIAL_CATEGORIES) (helig : it.bnpl_eligible = true)
    (hmin : BNPL_MIN_AMOUNT ≤ it.price) :
    markEssential it ∈ (classify_items l).2 := by
  induction l with
  | nil => cases hmem
  | cons a rest ih =>
    simp only [classify_items]
    rcases List.mem_cons.mp hmem with heq | htail
    · subst heq
      rw [if_neg hcat, if_pos ⟨helig, hmin⟩]
      exact List.mem_cons_self _ _
    · split_ifs with h1 h2
      · exact ih htail
      · exact List.mem_cons_of_mem _ (ih htail)
      · exact ih htail

theorem discLoop_recs_map (elig : Bool) (today : ℤ) (essTot avail safe : ℚ)
    (l : List CartItem) :
    ((discLoop elig today essTot avail safe l).recs.map (fun r => r.item)) = l := by
  induction l with
  | nil => simp [discLoop]
  | cons it rest ih =>
    simp only [discLoop]
    split_ifs <;>
      simp [recNotEligible, recOverMax, recTightBudget, recBufferBreach, recComfortable,
        recSufficient, ih]

theorem discLoop_perm (elig : Bool) (today : ℤ) (essTot avail safe : ℚ)
    (l : List CartItem) :
    List.Perm ((discLoop elig today essTot avail safe l).payNow ++
      (discLoop elig today essTot avail safe l).bnpl) l := by
  induction l with
  | nil => simp [discLoop]
  | cons it rest ih =>
    simp only [discLoop]
    split_ifs <;>
      first
      | exact List.Perm.cons _ ih
      | exact List.Perm.trans List.perm_middle (List.Perm.cons _ ih)

theorem discLoop_payNow_of_gt (elig : Bool) (today : ℤ) (essTot avail safe : ℚ)
    {l : List CartItem} {it : CartItem} (hmem : it ∈ l)
    (hgt : BNPL_MAX_AMOUNT < it.price) :
    it ∈ (discLoop elig today essTot avail safe l).payNow := by
  induction l with
  | nil => cases hmem
  | cons a rest ih =>
    simp only [discLoop]
    rcases List.mem_cons.mp hmem with heq | htail
    · subst heq
      by_cases hE : elig = false
      · rw [if_pos hE]
        exact List.mem_cons_self _ _
      · rw [if_neg hE, if_pos hgt]
        exact List.mem_cons_self _ _
    · have hrec := ih htail
      split_ifs <;> first | exact List.mem_cons_of_mem _ hrec | exact hrec

theorem discLoop_warn_of_gt (today : ℤ) (essTot avail safe : ℚ)
    {l : List CartItem} {it : CartItem} (hmem : it ∈ l)
    (hgt : BNPL_MAX_AMOUNT < it.price) :
    (it.name ++ " exceeds BNPL maximum amount.") ∈
      (discLoop true today essTot avail safe l).warns := by
  induction l with
  | nil => cases hmem
  | cons a rest ih =>
    simp only [discLoop]
    rcases List.mem_cons.mp hmem with heq | htail
    · subst heq
      rw [if_neg (by simp : ¬(true = false)), if_pos hgt]
      exact List.mem_cons_self _ _
    · have hrec := ih htail
      split_ifs <;> first | exact List.mem_cons_of_mem _ hrec | exact hrec

theorem discLoop_recs_strategy (elig : Bool) (today : ℤ) (essTot avail safe : ℚ)
    {l : List CartItem} {r : PaymentRecommendation}
    (hmem : r ∈ (discLoop elig today essTot avail safe l).recs) :
    r.strategy = "PAY_NOW" ∨ (r.strategy = "BNPL" ∧ r.item.price ≤ BNPL_MAX_AMOUNT) := by
  induction l with
  | nil => simp [discLoop] at hmem
  | cons a rest ih =>
    simp only [discLoop] at hmem
    split_ifs at hmem with h1 h2 h3 h4 h5 <;>
      rcases List.mem_cons.mp hmem with heq | htail <;>
      first
        | exact ih htail
        | (subst heq; left; rfl)
        | (subst heq; right; exact ⟨rfl, le_of_not_lt h2⟩)

theorem optimizeCore_recs_map (today : ℤ) (fin : FinancialSnapshot) (u : UserProfile)
    (items : List CartItem) :
    ((optimizeCore today fin u items).recommendations.map (fun r => r.item)) =
      (classify_items items).1 ++ (classify_items items).2 := by
  simp only [optimizeCore, essentialsOf, discOutOf, discretionaryOf, List.map_append,
    List.map_map]
  congr 1
  · have h : ((fun r => r.item) ∘ essentialRec) = id := funext fun it => rfl
    rw [h, List.map_id]
  · exact discLoop_recs_map _ _ _ _ _ _

theorem optimizeCore_partition_perm (today : ℤ) (fin : FinancialSnapshot) (u : UserProfile)
    (items : List CartItem) :
    List.Perm
      ((optimizeCore today fin u items).pay_now_items ++
        (optimizeCore today fin u items).bnpl_items)
      (items.map markEssential) := by
  simp only [optimizeCore, payNowItemsOf, bnplItemsOf, essentialsOf, discOutOf,
    discretionaryOf]
  rw [List.append_assoc]
  exact ((discLoop_perm _ _ _ _ _ _).append_left _).trans (classify_items_perm items)

theorem optimizeCore_sum (today : ℤ) (fin : FinancialSnapshot) (u : UserProfile)
    (items : List CartItem) (hw : ∀ it ∈ items, WholeCents it.price) :
    (optimizeCore today fin u items).pay_now_total +
      (optimizeCore today fin u items).bnpl_total =
      ((items.map fun it => it.price).sum) := by
  have hperm := optimizeCore_partition_perm today fin u items
  set res := optimizeCore today fin u items with hres
  have hmem : ∀ x ∈ res.pay_now_items ++ res.bnpl_items, WholeCents x.price := by
    intro x hx
    obtain ⟨y, hy, hxy⟩ := List.mem_map.mp (hperm.mem_iff.mp hx)
    rw [← hxy, markEssential_price]
    exact hw y hy
  have hwc_pn : WholeCents ((res.pay_now_items.map fun it => it.price).sum) := by
    refine wholeCents_sum _ ?_
    intro q hq
    obtain ⟨x, hx, rfl⟩ := List.mem_map.mp hq
    exact hmem x (List.mem_append_left _ hx)
  have hwc_bn : WholeCents ((res.bnpl_items.map fun it => it.price).sum) := by
    refine wholeCents_sum _ ?_
    intro q hq
    obtain ⟨x, hx, rfl⟩ := List.mem_map.mp hq
    exact hmem x (List.mem_append_right _ hx)
  have e1 : res.pay_now_total = (res.pay_now_items.map fun it => it.price).sum := by
    rw [show res.pay_now_total = round2 ((res.pay_now_items.map fun it => it.price).sum)
      from rfl]
    exact round2_eq_self hwc_pn
  have e2 : res.bnpl_total = (res.bnpl_items.map fun it => it.price).sum := by
    rw [show res.bnpl_total = round2 ((res.bnpl_items.map fun it => it.price).sum) from rfl]
    exact round2_eq_self hwc_bn
  rw [e1, e2, ← List.sum_append, ← List.map_append]
  rw [(hperm.map (fun it => it.price)).sum_eq, List.map_map]
  congr 1

theorem optimize_cart_eq_some {db : ProfileDB} {today : ℤ} {uid : String}
    {items : List CartItem} {res : CartOptimization} :
    optimize_cart db today uid items = some res ↔
      ∃ u, List.lookup uid db = some u ∧
        res = optimizeCore today (buildSnapshot today 30 u) u items := by
  unfold optimize_cart calculate_available_funds
  cases h : List.lookup uid db with
  | none => simp [h]
  | some u => simp [h, eq_comm]

/-! ## Concrete fixtures for witnesses and counterexamples -/

/-- A deferral-eligible profile with ample balance, no bills, no paycheck. -/
def aliceProfile : UserProfile := ⟨"Alice", 10000, [], none, "good", true⟩

/-- Profile store containing only `aliceProfile` under id `u1`. -/
def dbEligible : ProfileDB := [("u1", aliceProfile)]

/-- A profile that is not deferral-eligible. -/
def bobProfile : UserProfile := ⟨"Bob", 10000, [], none, "good", false⟩

/-- Profile store containing only `bobProfile` under id `u2`. -/
def dbIneligible : ProfileDB := [("u2", bobProfile)]

/-- A profile with an upcoming paycheck on day 20010 (inside a 30-day window
starting at day 20000). -/
def caraProfile : UserProfile := ⟨"Cara", 1000, [], some ⟨20010, 500⟩, "good", true⟩

/-- Profile store containing only `caraProfile` under id `u3`. -/
def dbPaycheck : ProfileDB := [("u3", caraProfile)]

/-- A trivial optimization result used as the `Option.getD` default when a
witness names the concrete result of an `optimize_cart` call. -/
def emptyOpt : CartOptimization := ⟨[], [], 0, 0, 0, [], "", [], 0⟩

/-! ## Claims -/

/-- C8: `calculate_available_funds`, and `optimize_cart` which calls it, fail
with the user-not-found error (modelled as `none`) if and only if the given
user id is absent from the profile store; for every present (well-formed)
profile both calls succeed — the remaining arithmetic is total, as the
embedding computes every field of the result for arbitrary profile data. -/
theorem claim_C8 (db : ProfileDB) (today : ℤ) (uid : String) (items : List CartItem) :
    ((calculate_available_funds db today uid 30).isNone ↔ List.lookup uid db = none) ∧
    ((optimize_cart db today uid items).isNone ↔ List.lookup uid db = none) := by
  cases h : List.lookup uid db with
  | none => simp [calculate_available_funds, optimize_cart, h]
  | some u => simp [calculate_available_funds, optimize_cart, h]

/-- C3: every recommendation whose item has a category in the fixed essential
set (Groceries, Baby & Kids, Health & Beauty, Medicine) carries strategy
PAY_NOW, and every essential-category input item lands in the pay-now
partition — with no hypothesis on the item price, the item eligibility flag,
or the account eligibility. -/
theorem claim_C3 (db : ProfileDB) (today : ℤ) (uid : String) (items : List CartItem)
    (res : CartOptimization) (h : optimize_cart db today uid items = some res) :
    (∀ r ∈ res.recommendations, r.item.category ∈ ESSENTIAL_CATEGORIES →
      r.strategy = "PAY_NOW") ∧
    (∀ it ∈ items, it.category ∈ ESSENTIAL_CATEGORIES →
      markEssential it ∈ res.pay_now_items) := by
  obtain ⟨u, hu, rfl⟩ := optimize_cart_eq_some.mp h
  constructor
  · intro r hr hcat
    have hr2 : r ∈ (essentialsOf items).map essentialRec ++
        (discOutOf today (buildSnapshot today 30 u) items).recs := hr
    rcases List.mem_append.mp hr2 with h1 | h2
    · obtain ⟨x, hx, rfl⟩ := List.mem_map.mp h1
      rfl
    · have hitem : r.item ∈ discretionaryOf items := by
        have hmm := List.mem_map_of_mem (fun r => r.item) h2
        rw [show (discOutOf today (buildSnapshot today 30 u) items) =
          discLoop (buildSnapshot today 30 u).bnpl_eligible today (essentialTotalOf items)
            (buildSnapshot today 30 u).available_for_spending
            (buildSnapshot today 30 u).safe_bnpl_installment
            (discretionaryOf items) from rfl, discLoop_recs_map] at hmm
        exact hmm
      exact absurd hcat
        (classify_items_snd_not_essential items r.item hitem)
  · intro it hit hcat
    have hm := classify_items_fst_mem hit (Or.inl hcat)
    exact List.mem_append_left _ hm

/-- Cart used by the C3 witness: an essential item that is itself flagged
deferral-ineligible, next to an expensive electronics item. -/
def cartC3 : List CartItem :=
  [⟨"Milk", 399/100, "Groceries", false, false⟩, ⟨"TV", 2500, "Electronics", true, false⟩]

/-- C3 witness: the theorem instantiated on a concrete store and cart. -/
theorem claim_C3_witness :
    optimize_cart dbEligible 20000 "u1" cartC3 =
      some ((optimize_cart dbEligible 20000 "u1" cartC3).getD emptyOpt) ∧
    ((∀ r ∈ ((optimize_cart dbEligible 20000 "u1" cartC3).getD emptyOpt).recommendations,
        r.item.category ∈ ESSENTIAL_CATEGORIES → r.strategy = "PAY_NOW") ∧
      (∀ it ∈ cartC3, it.category ∈ ESSENTIAL_CATEGORIES →
        markEssential it ∈
          ((optimize_cart dbEligible 20000 "u1" cartC3).getD emptyOpt).pay_now_items)) :=
  ⟨by rfl, claim_C3 dbEligible 20000 "u1" cartC3
    ((optimize_cart dbEligible 20000 "u1" cartC3).getD emptyOpt) (by rfl)⟩

/-- Cart used for C4: a discretionary electronics item listed before an
essential groceries item. -/
def cartC4 : List CartItem :=
  [⟨"AirPods", 150, "Electronics", true, false⟩, ⟨"Bananas", 5, "Groceries", false, false⟩]

/-- C4 counterexample: with the cart ordered [AirPods, Bananas], the
returned recommendations are ordered [Bananas, AirPods] — essential items
are emitted first — so the recommendation sequence does not preserve the
input order of the cart. -/
theorem claim_C4_counterexample :
    (optimize_cart dbEligible 20000 "u1" cartC4).map
        (fun r => r.recommendations.map (fun rc => rc.item.name)) =
      some ["Bananas", "AirPods"] ∧
    cartC4.map (fun it => it.name) = ["AirPods", "Bananas"] :=
  ⟨by with_unfolding_all decide, by rfl⟩

/-- C4 amended: `optimize_cart` returns exactly one recommendation per input
item and every input item lands in exactly one partition (the two partitions
concatenated are a permutation of the classifier-annotated input), but the
recommendation sequence lists the essential/fallback partition first, then
the deferral candidates — each partition in input order — rather than the
original cart order. -/
theorem claim_C4_amended (db : ProfileDB) (today : ℤ) (uid : String) (items : List CartItem)
    (res : CartOptimization) (h : optimize_cart db today uid items = some res) :
    res.recommendations.length = items.length ∧
    res.recommendations.map (fun r => r.item) =
      (classify_items items).1 ++ (classify_items items).2 ∧
    List.Perm (res.pay_now_items ++ res.bnpl_items) (items.map markEssential) := by
  obtain ⟨u, hu, rfl⟩ := optimize_cart_eq_some.mp h
  refine ⟨?_, optimizeCore_recs_map _ _ _ _, optimizeCore_partition_perm _ _ _ _⟩
  have h1 := congrArg List.length (optimizeCore_recs_map today (buildSnapshot today 30 u) u items)
  rw [List.length_map] at h1
  have h2 := (classify_items_perm items).length_eq
  rw [List.length_map] at h2
  exact h1.trans h2

/-- C4 witness: the amended theorem instantiated on the counterexample cart. -/
theorem claim_C4_witness :
    optimize_cart dbEligible 20000 "u1" cartC4 =
      some ((optimize_cart dbEligible 20000 "u1" cartC4).getD emptyOpt) ∧
    (((optimize_cart dbEligible 20000 "u1" cartC4).getD emptyOpt).recommendations.length =
        cartC4.length ∧
      ((optimize_cart dbEligible 20000 "u1" cartC4).getD emptyOpt).recommendations.map
          (fun r => r.item) = (classify_items cartC4).1 ++ (classify_items cartC4).2 ∧
      List.Perm
        (((optimize_cart dbEligible 20000 "u1" cartC4).getD emptyOpt).pay_now_items ++
          ((optimize_cart dbEligible 20000 "u1" cartC4).getD emptyOpt).bnpl_items)
        (cartC4.map markEssential)) :=
  ⟨by rfl, claim_C4_amended dbEligible 20000 "u1" cartC4
    ((optimize_cart dbEligible 20000 "u1" cartC4).getD emptyOpt) (by rfl)⟩

/-- Cart holding a single item with a sub-cent price. -/
def cartC1 : List CartItem := [⟨"Pencil", 3/1000, "Electronics", true, false⟩]

/-- C1 counterexample: for an item priced at a fraction of a cent ($0.003),
the returned totals are `round(_, 2)`-rounded, so `pay_now_total +
bnpl_total = 0` while the sum of the input prices is $0.003 — the claimed
equality fails for prices that are not whole cents. -/
theorem claim_C1_counterexample :
    (optimize_cart dbEligible 20000 "u1" cartC1).map
        (fun r => r.pay_now_total + r.bnpl_total) = some 0 ∧
    (cartC1.map (fun it => it.price)).sum = 3/1000 ∧ (0 : ℚ) ≠ 3/1000 :=
  ⟨by with_unfolding_all decide, by norm_num [cartC1], by norm_num⟩

/-- C1 amended: for every snapshot and every cart whose item prices are whole
numbers of cents (the domain of currency amounts), the result of
`optimize_cart` satisfies `pay_now_total + bnpl_total = Σ input prices`
exactly — no item is lost or duplicated across the two partitions; for
sub-cent prices the per-partition rounding can shift each total by under a
cent. -/
theorem claim_C1_amended (db : ProfileDB) (today : ℤ) (uid : String) (items : List CartItem)
    (res : CartOptimization) (h : optimize_cart db today uid items = some res)
    (hw : ∀ it ∈ items, WholeCents it.price) :
    res.pay_now_total + res.bnpl_total = (items.map (fun it => it.price)).sum := by
  obtain ⟨u, hu, rfl⟩ := optimize_cart_eq_some.mp h
  exact optimizeCore_sum today (buildSnapshot today 30 u) u items hw

/-- Cart used by the C1 witness (whole-cent prices, one of each partition). -/
def cartC1w : List CartItem :=
  [⟨"Diapers", 2499/100, "Baby & Kids", true, false⟩,
   ⟨"AirPods", 14999/100, "Electronics", true, false⟩]

/-- C1 witness: the amended theorem instantiated on a concrete store and
cart. -/
theorem claim_C1_witness :
    optimize_cart dbEligible 20000 "u1" cartC1w =
      some ((optimize_cart dbEligible 20000 "u1" cartC1w).getD emptyOpt) ∧
    (∀ it ∈ cartC1w, WholeCents it.price) ∧
    ((optimize_cart dbEligible 20000 "u1" cartC1w).getD emptyOpt).pay_now_total +
        ((optimize_cart dbEligible 20000 "u1" cartC1w).getD emptyOpt).bnpl_total =
      (cartC1w.map (fun it => it.price)).sum :=
  ⟨by rfl, by with_unfolding_all decide,
    claim_C1_amended dbEligible 20000 "u1" cartC1w
      ((optimize_cart dbEligible 20000 "u1" cartC1w).getD emptyOpt) (by rfl)
      (by with_unfolding_all decide)⟩

/-- C2 counterexample: at the non-negative sub-cent amount $0.001 the four
payments are all 0 — the final payment is `round(amount - sum, 2)`, not
`amount - sum` — so the last entry differs from `amount` minus the first
three and the payments do not sum to the original amount. -/
theorem claim_C2_counterexample :
    (calculate_bnpl_plan 20000 (1/1000) 4).payments = [0, 0, 0, 0] ∧
    ((1 : ℚ)/1000 - (0 + 0 + 0) ≠ 0) ∧
    (calculate_bnpl_plan 20000 (1/1000) 4).payments.sum ≠ 1/1000 :=
  ⟨by with_unfolding_all decide, by norm_num, by with_unfolding_all decide⟩

/-- C2 amended: for every amount that is non-negative and a whole number of
cents, `calculate_bnpl_plan` with installment count 4 returns first three
payments of `round(amount/4, 2)` and a final payment of exactly `amount`
minus those three (the rounding in the code is the identity there), so the
four payments sum to the amount exactly; the payment dates are
`today + 2·i` weeks for `i = 0, 1, 2, 3`, hence in order and strictly two
weeks apart.  For sub-cent amounts the final rounding breaks exactness. -/
theorem claim_C2_amended (today : ℤ) (amount : ℚ) (h0 : 0 ≤ amount)
    (hw : WholeCents amount) :
    (calculate_bnpl_plan today amount 4).payments =
      [round2 (amount / 4), round2 (amount / 4), round2 (amount / 4),
        amount - 3 * round2 (amount / 4)] ∧
    (calculate_bnpl_plan today amount 4).payments.sum = amount ∧
    (calculate_bnpl_plan today amount 4).payment_dates =
      [strfDate today, strfDate (today + 14), strfDate (today + 28),
        strfDate (today + 42)] := by
  have hwb : WholeCents (round2 (amount / 4)) := wholeCents_round2 _
  have h3 : WholeCents (round2 (amount / 4) + (round2 (amount / 4) + (round2 (amount / 4) + 0))) :=
    hwb.add (hwb.add (hwb.add wholeCents_zero))
  have hpay : (calculate_bnpl_plan today amount 4).payments =
      [round2 (amount / 4), round2 (amount / 4), round2 (amount / 4),
        round2 (amount - (round2 (amount / 4) + (round2 (amount / 4) + (round2 (amount / 4) + 0))))] := by
    simp [calculate_bnpl_plan, List.replicate]
  have hlast :
      round2 (amount - (round2 (amount / 4) + (round2 (amount / 4) + (round2 (amount / 4) + 0)))) =
        amount - 3 * round2 (amount / 4) := by
    rw [round2_eq_self (hw.sub h3)]
    ring
  refine ⟨?_, ?_, ?_⟩
  · rw [hpay, hlast]
  · rw [hpay, hlast]
    simp only [List.sum_cons, List.sum_nil]
    ring
  · show (List.range 4).map (fun i => strfDate (today + 14 * (i : ℤ))) = _
    norm_num [List.range_succ]

/-- C2 witness: the amended theorem instantiated at amount $149.99 (the
worked example of the spec: payments 37.50, 37.50, 37.50, 37.49). -/
theorem claim_C2_witness :
    (0 ≤ (14999/100 : ℚ)) ∧ WholeCents (14999/100 : ℚ) ∧
    ((calculate_bnpl_plan 20000 (14999/100) 4).payments =
      [round2 ((14999/100 : ℚ) / 4), round2 ((14999/100 : ℚ) / 4),
        round2 ((14999/100 : ℚ) / 4), (14999/100 : ℚ) - 3 * round2 ((14999/100 : ℚ) / 4)] ∧
    (calculate_bnpl_plan 20000 (14999/100) 4).payments.sum = (14999/100 : ℚ) ∧
    (calculate_bnpl_plan 20000 (14999/100) 4).payment_dates =
      [strfDate 20000, strfDate (20000 + 14), strfDate (20000 + 28),
        strfDate (20000 + 42)]) :=
  ⟨by norm_num, by with_unfolding_all decide,
    claim_C2_amended 20000 (14999/100) (by norm_num) (by with_unfolding_all decide)⟩

/-- Cart holding one deferral-candidate item priced above the $2000 limit. -/
def cartC5 : List CartItem := [⟨"TV", 2500, "Electronics", true, false⟩]

/-- C5 counterexample: for an account that is not deferral-eligible, rule (a)
fires before the over-limit rule (b), so a $2500 item is PAY_NOW but no
warning naming it is appended — the warnings list is empty, contradicting
the claim that the warning appears for every account and snapshot. -/
theorem claim_C5_counterexample :
    (optimize_cart dbIneligible 20000 "u2" cartC5).map
        (fun r => (r.warnings, r.recommendations.map (fun rc => rc.strategy))) =
      some ([], ["PAY_NOW"]) := by
  with_unfolding_all decide

/-- C5 amended: every item priced above the $2000 maximum is always assigned
PAY_NOW (its recommendation strategy is PAY_NOW and it lands in the pay-now
partition), but the warning naming it is appended only when the over-limit
rule is reached: the account must be deferral-eligible and the item must be a
deferral candidate (non-essential category and item-eligible); an ineligible
account, an essential category, or an item-level ineligibility flag produces
PAY_NOW with no warning. -/
theorem claim_C5_amended (db : ProfileDB) (today : ℤ) (uid : String) (u : UserProfile)
    (items : List CartItem) (res : CartOptimization)
    (hu : List.lookup uid db = some u)
    (h : optimize_cart db today uid items = some res) :
    (∀ r ∈ res.recommendations, BNPL_MAX_AMOUNT < r.item.price → r.strategy = "PAY_NOW") ∧
    (∀ it ∈ items, BNPL_MAX_AMOUNT < it.price → markEssential it ∈ res.pay_now_items) ∧
    (u.bnpl_eligible = true → ∀ it ∈ items, BNPL_MAX_AMOUNT < it.price →
      it.category ∉ ESSENTIAL_CATEGORIES → it.bnpl_eligible = true →
      (it.name ++ " exceeds BNPL maximum amount.") ∈ res.warnings) := by
  obtain ⟨u2, hu2, rfl⟩ := optimize_cart_eq_some.mp h
  cases Option.some.inj (hu.symm.trans hu2)
  refine ⟨?_, ?_, ?_⟩
  · intro r hr hgt
    have hr2 : r ∈ (essentialsOf items).map essentialRec ++
        (discOutOf today (buildSnapshot today 30 u) items).recs := hr
    rcases List.mem_append.mp hr2 with h1 | h2
    · obtain ⟨x, hx, rfl⟩ := List.mem_map.mp h1
      rfl
    · rcases discLoop_recs_strategy _ _ _ _ _ h2 with hs | ⟨_, hle⟩
      · exact hs
      · exact absurd hgt (not_lt.mpr hle)
  · intro it hit hgt
    by_cases hcat : it.category ∈ ESSENTIAL_CATEGORIES
    · exact List.mem_append_left _ (classify_items_fst_mem hit (Or.inl hcat))
    · by_cases helig : it.bnpl_eligible = true
      · have hmin : BNPL_MIN_AMOUNT ≤ it.price :=
          le_of_lt (lt_of_le_of_lt (by norm_num [BNPL_MIN_AMOUNT, BNPL_MAX_AMOUNT]) hgt)
        have hd := classify_items_snd_mem hit hcat helig hmin
        exact List.mem_append_right _
          (discLoop_payNow_of_gt (buildSnapshot today 30 u).bnpl_eligible today
            (essentialTotalOf items) (buildSnapshot today 30 u).available_for_spending
            (buildSnapshot today 30 u).safe_bnpl_installment hd (by simpa using hgt))
      · have hnc : ¬(it.bnpl_eligible = true ∧ BNPL_MIN_AMOUNT ≤ it.price) :=
          fun hc => helig hc.1
        exact List.mem_append_left _ (classify_items_fst_mem hit (Or.inr hnc))
  · intro hE it hit hgt hcat helig
    have hmin : BNPL_MIN_AMOUNT ≤ it.price :=
      le_of_lt (lt_of_le_of_lt (by norm_num [BNPL_MIN_AMOUNT, BNPL_MAX_AMOUNT]) hgt)
    have hd := classify_items_snd_mem hit hcat helig hmin
    have hw2 := discLoop_warn_of_gt today (essentialTotalOf items)
      (buildSnapshot today 30 u).available_for_spending
      (buildSnapshot today 30 u).safe_bnpl_installment hd (by simpa using hgt)
    rw [markEssential_name] at hw2
    have hdef : discOutOf today (buildSnapshot today 30 u) items =
        discLoop true today (essentialTotalOf items)
          (buildSnapshot today 30 u).available_for_spending
          (buildSnapshot today 30 u).safe_bnpl_installment (discretionaryOf items) := by
      unfold discOutOf
      rw [show (buildSnapshot today 30 u).bnpl_eligible = true from hE]
    refine List.mem_append_left _ ?_
    rw [show (discOutOf today (buildSnapshot today 30 u) items).warns =
      (discLoop true today (essentialTotalOf items)
        (buildSnapshot today 30 u).available_for_spending
        (buildSnapshot today 30 u).safe_bnpl_installment (discretionaryOf items)).warns
      from by rw [hdef]]
    exact hw2

/-- C5 witness: the amended theorem instantiated on an eligible account with
the over-limit cart. -/
theorem claim_C5_witness :
    List.lookup "u1" dbEligible = some aliceProfile ∧
    optimize_cart dbEligible 20000 "u1" cartC5 =
      some ((optimize_cart dbEligible 20000 "u1" cartC5).getD emptyOpt) ∧
    ((∀ r ∈ ((optimize_cart dbEligible 20000 "u1" cartC5).getD emptyOpt).recommendations,
        BNPL_MAX_AMOUNT < r.item.price → r.strategy = "PAY_NOW") ∧
      (∀ it ∈ cartC5, BNPL_MAX_AMOUNT < it.price →
        markEssential it ∈
          ((optimize_cart dbEligible 20000 "u1" cartC5).getD emptyOpt).pay_now_items) ∧
      (aliceProfile.bnpl_eligible = true → ∀ it ∈ cartC5, BNPL_MAX_AMOUNT < it.price →
        it.category ∉ ESSENTIAL_CATEGORIES → it.bnpl_eligible = true →
        (it.name ++ " exceeds BNPL maximum amount.") ∈
          ((optimize_cart dbEligible 20000 "u1" cartC5).getD emptyOpt).warnings)) :=
  ⟨by rfl, by rfl,
    claim_C5_amended dbEligible 20000 "u1" aliceProfile cartC5
      ((optimize_cart dbEligible 20000 "u1" cartC5).getD emptyOpt) (by rfl) (by rfl)⟩

/-- The projected balance after the first payment exactly as the claim
states it: current balance minus (pay-now total + monthly installment),
where the totals are the exact sums over the result partitions and the
monthly installment is a quarter of the deferred total (0 when nothing is
deferred). -/
def claimProjected (u : UserProfile) (res : CartOptimization) : ℚ :=
  u.bank_balance - ((res.pay_now_items.map (fun it => it.price)).sum +
    (if res.bnpl_items = [] then 0 else (res.bnpl_items.map (fun it => it.price)).sum / 4))

/-- C7: `optimize_cart` computes the projected balance as
`currentBalance - (payNowTotal + monthlyInstallment)`; when negative it
appends exactly the overdraft warning with the exact shortfall, when
non-negative but below $100 exactly the caution warning with the exact
remainder, and otherwise neither — in each case after the warnings produced
by the per-item loop. -/
theorem claim_C7 (db : ProfileDB) (today : ℤ) (uid : String) (u : UserProfile)
    (items : List CartItem) (res : CartOptimization)
    (hu : List.lookup uid db = some u)
    (h : optimize_cart db today uid items = some res) :
    res.projected_balance = round2 (claimProjected u res) ∧
    (claimProjected u res < 0 →
      res.warnings = (discOutOf today (buildSnapshot today 30 u) items).warns ++
        [overdraftWarning (claimProjected u res)]) ∧
    (0 ≤ claimProjected u res → claimProjected u res < 100 →
      res.warnings = (discOutOf today (buildSnapshot today 30 u) items).warns ++
        [cautionWarning (claimProjected u res)]) ∧
    (100 ≤ claimProjected u res →
      res.warnings = (discOutOf today (buildSnapshot today 30 u) items).warns) := by
  obtain ⟨u2, hu2, rfl⟩ := optimize_cart_eq_some.mp h
  cases Option.some.inj (hu.symm.trans hu2)
  have hcp : claimProjected u (optimizeCore today (buildSnapshot today 30 u) u items) =
      projectedOf today (buildSnapshot today 30 u) items := rfl
  refine ⟨by rw [hcp]; rfl, ?_, ?_, ?_⟩
  · intro hlt
    rw [hcp] at hlt ⊢
    show warningsOf today (buildSnapshot today 30 u) items = _
    unfold warningsOf
    rw [if_pos hlt]
  · intro hge hlt
    rw [hcp] at hge hlt ⊢
    show warningsOf today (buildSnapshot today 30 u) items = _
    unfold warningsOf
    rw [if_neg (not_lt.mpr hge), if_pos hlt]
  · intro hge
    rw [hcp] at hge
    show warningsOf today (buildSnapshot today 30 u) items = _
    unfold warningsOf
    rw [if_neg (not_lt.mpr (le_trans (by norm_num) hge)), if_neg (not_lt.mpr hge),
      List.append_nil]

/-- The tight-budget profile of the worked example in the spec: $500
balance, a $300 bill due inside the window. -/
def emilyProfile : UserProfile :=
  ⟨"Emily", 500, [⟨"Rent", 300, "2024-10-20", 20016⟩], none, "fair", true⟩

/-- Profile store containing only `emilyProfile` under id `u4`. -/
def dbEmily : ProfileDB := [("u4", emilyProfile)]

/-- Cart of the worked example (one essential, one deferral candidate). -/
def cartC7 : List CartItem :=
  [⟨"Diapers", 2499/100, "Baby & Kids", true, false⟩,
   ⟨"AirPods", 14999/100, "Electronics", true, false⟩]

/-- C7 witness: the theorem instantiated on the worked example. -/
theorem claim_C7_witness :
    List.lookup "u4" dbEmily = some emilyProfile ∧
    optimize_cart dbEmily 20000 "u4" cartC7 =
      some ((optimize_cart dbEmily 20000 "u4" cartC7).getD emptyOpt) ∧
    (((optimize_cart dbEmily 20000 "u4" cartC7).getD emptyOpt).projected_balance =
        round2 (claimProjected emilyProfile
          ((optimize_cart dbEmily 20000 "u4" cartC7).getD emptyOpt)) ∧
      (claimProjected emilyProfile ((optimize_cart dbEmily 20000 "u4" cartC7).getD emptyOpt) < 0 →
        ((optimize_cart dbEmily 20000 "u4" cartC7).getD emptyOpt).warnings =
          (discOutOf 20000 (buildSnapshot 20000 30 emilyProfile) cartC7).warns ++
            [overdraftWarning (claimProjected emilyProfile
              ((optimize_cart dbEmily 20000 "u4" cartC7).getD emptyOpt))]) ∧
      (0 ≤ claimProjected emilyProfile ((optimize_cart dbEmily 20000 "u4" cartC7).getD emptyOpt) →
        claimProjected emilyProfile ((optimize_cart dbEmily 20000 "u4" cartC7).getD emptyOpt) < 100 →
        ((optimize_cart dbEmily 20000 "u4" cartC7).getD emptyOpt).warnings =
          (discOutOf 20000 (buildSnapshot 20000 30 emilyProfile) cartC7).warns ++
            [cautionWarning (claimProjected emilyProfile
              ((optimize_cart dbEmily 20000 "u4" cartC7).getD emptyOpt))]) ∧
      (100 ≤ claimProjected emilyProfile ((optimize_cart dbEmily 20000 "u4" cartC7).getD emptyOpt) →
        ((optimize_cart dbEmily 20000 "u4" cartC7).getD emptyOpt).warnings =
          (discOutOf 20000 (buildSnapshot 20000 30 emilyProfile) cartC7).warns)) :=
  ⟨by rfl, by rfl,
    claim_C7 dbEmily 20000 "u4" emilyProfile cartC7
      ((optimize_cart dbEmily 20000 "u4" cartC7).getD emptyOpt) (by rfl) (by rfl)⟩

/-- Cart holding a single negatively priced item. -/
def cartC9 : List CartItem := [⟨"Refund voucher", -5, "Electronics", true, false⟩]

/-- C9 counterexample: the engine performs no price validation at all: a
negative-price item is processed like any other (it falls into the pay-now
partition and receives a normal recommendation) and the warnings list stays
empty — the claimed rejection-with-validation-warning does not exist in the
code. -/
theorem claim_C9_counterexample :
    (optimize_cart dbEligible 20000 "u1" cartC9).map
        (fun r => (r.warnings, r.pay_now_items.map (fun it => it.name),
          r.recommendations.length)) =
      some ([], ["Refund voucher"], 1) := by
  with_unfolding_all decide

/-- C9 amended: a negative (or otherwise invalid) price is not validated:
the optimization call still succeeds, the offending item is processed like
any other item — since a negative price is below the $35 minimum it always
lands in the pay-now partition — it still receives a recommendation (one per
input item), and no validation warning is emitted because none exists in the
engine. -/
theorem claim_C9_amended (db : ProfileDB) (today : ℤ) (uid : String) (u : UserProfile)
    (items : List CartItem) (it : CartItem)
    (hu : List.lookup uid db = some u) (hit : it ∈ items) (hneg : it.price < 0) :
    ∃ res, optimize_cart db today uid items = some res ∧
      markEssential it ∈ res.pay_now_items ∧
      res.recommendations.length = items.length := by
  refine ⟨optimizeCore today (buildSnapshot today 30 u) u items, ?_, ?_, ?_⟩
  · simp [optimize_cart, calculate_available_funds, hu]
  · by_cases hcat : it.category ∈ ESSENTIAL_CATEGORIES
    · exact List.mem_append_left _ (classify_items_fst_mem hit (Or.inl hcat))
    · have hnc : ¬(it.bnpl_eligible = true ∧ BNPL_MIN_AMOUNT ≤ it.price) := by
        rintro ⟨-, hmin⟩
        have hpos : (0 : ℚ) < BNPL_MIN_AMOUNT := by norm_num [BNPL_MIN_AMOUNT]
        linarith
      exact List.mem_append_left _ (classify_items_fst_mem hit (Or.inr hnc))
  · have h1 := congrArg List.length
      (optimizeCore_recs_map today (buildSnapshot today 30 u) u items)
    rw [List.length_map] at h1
    have h2 := (classify_items_perm items).length_eq
    rw [List.length_map] at h2
    exact h1.trans h2

/-- C9 witness: the amended theorem instantiated on the negative-price cart. -/
theorem claim_C9_witness :
    List.lookup "u1" dbEligible = some aliceProfile ∧
    (⟨"Refund voucher", -5, "Electronics", true, false⟩ : CartItem) ∈ cartC9 ∧
    ((-5 : ℚ) < 0) ∧
    (∃ res, optimize_cart dbEligible 20000 "u1" cartC9 = some res ∧
      markEssential ⟨"Refund voucher", -5, "Electronics", true, false⟩ ∈ res.pay_now_items ∧
      res.recommendations.length = cartC9.length) :=
  ⟨rfl, by simp [cartC9], by norm_num,
    claim_C9_amended dbEligible 20000 "u1" aliceProfile cartC9
      ⟨"Refund voucher", -5, "Electronics", true, false⟩ rfl (by simp [cartC9]) (by norm_num)⟩

/-- C6 counterexample: the calendar INCOME event's date is the
`datetime.isoformat()` string `YYYY-MM-DDT00:00:00`, not a canonical bare
`YYYY-MM-DD` date — so not every emitted event date is canonical. -/
theorem claim_C6_counterexample :
    (get_payment_calendar dbPaycheck 20000 "u3" emptyOpt).map
        (fun es => es.map (fun e => (e.type, isCanonicalDate e.date))) =
      some [("PAYMENT", true), ("INCOME", false)] := by
  with_unfolding_all decide

/-- C6 amended: the events returned by `get_payment_calendar` are always
sorted non-decreasing by their date strings (Python sorts by the raw string
key).  But the dates are not all canonical `YYYY-MM-DD`: PAYMENT and
BNPL_PAYMENT events carry `strftime` dates, while the INCOME event carries an
ISO datetime with a `T00:00:00` suffix and BILL events carry the profile's
due-date string verbatim, so lexicographic order is not guaranteed to agree
with chronological order for arbitrary profile date strings. -/
theorem claim_C6_amended (db : ProfileDB) (today : ℤ) (uid : String)
    (opt : CartOptimization) (evts : List Event)
    (h : get_payment_calendar db today uid opt = some evts) :
    List.Sorted dateLe evts := by
  unfold get_payment_calendar at h
  cases hc : calculate_available_funds db today uid 30 with
  | none => rw [hc] at h; cases h
  | some fin =>
    rw [hc] at h
    cases Option.some.inj h
    exact List.sorted_insertionSort dateLe _

/-- C6 witness: the amended theorem instantiated on a concrete calendar. -/
theorem claim_C6_witness :
    get_payment_calendar dbPaycheck 20000 "u3" emptyOpt =
      some ((get_payment_calendar dbPaycheck 20000 "u3" emptyOpt).getD []) ∧
    List.Sorted dateLe ((get_payment_calendar dbPaycheck 20000 "u3" emptyOpt).getD []) :=
  ⟨by rfl,
    claim_C6_amended dbPaycheck 20000 "u3" emptyOpt
      ((get_payment_calendar dbPaycheck 20000 "u3" emptyOpt).getD []) (by rfl)⟩

/-- C10: a next-paycheck record dated outside the 30-day window is still
reported: `calculate_available_funds` returns its date (as the isoformat
string) with expected amount 0, and `get_payment_calendar` then emits an
INCOME event of amount 0 at that out-of-window date instead of omitting
it. -/
theorem claim_C10 (db : ProfileDB) (today : ℤ) (uid : String) (u : UserProfile)
    (p : Paycheck) (hu : List.lookup uid db = some u) (hp : u.next_paycheck = some p)
    (hout : ¬(today ≤ p.date ∧ p.date ≤ today + 30)) :
    ∃ fin, calculate_available_funds db today uid 30 = some fin ∧
      fin.paycheck_expected = 0 ∧
      fin.paycheck_date = some (isoMidnight p.date) ∧
      ∀ opt : CartOptimization, ∃ evts,
        get_payment_calendar db today uid opt = some evts ∧
        (⟨isoMidnight p.date, "INCOME", "Paycheck", 0, none, none⟩ : Event) ∈ evts := by
  have hexp : (buildSnapshot today 30 u).paycheck_expected = 0 := by
    simp only [buildSnapshot, hp]
    rw [if_neg hout]
  have hdate : (buildSnapshot today 30 u).paycheck_date = some (isoMidnight p.date) := by
    simp [buildSnapshot, hp]
  refine ⟨buildSnapshot today 30 u, ?_, hexp, hdate, ?_⟩
  · simp [calculate_available_funds, hu]
  · intro opt
    refine ⟨List.insertionSort dateLe
      (calendarEventsOf today (buildSnapshot today 30 u) opt), ?_, ?_⟩
    · simp [get_payment_calendar, calculate_available_funds, hu]
    · rw [List.mem_insertionSort]
      simp only [calendarEventsOf, hdate, hexp]
      simp [List.mem_cons, List.mem_append]

/-- A profile whose next paycheck (day 20100) falls outside the 30-day
window starting at day 20000. -/
def dinaProfile : UserProfile := ⟨"Dina", 800, [], some ⟨20100, 750⟩, "good", true⟩

/-- Profile store containing only `dinaProfile` under id `u5`. -/
def dbLatePaycheck : ProfileDB := [("u5", dinaProfile)]

/-- C10 witness: the theorem instantiated on a paycheck 100 days out. -/
theorem claim_C10_witness :
    List.lookup "u5" dbLatePaycheck = some dinaProfile ∧
    dinaProfile.next_paycheck = some ⟨20100, 750⟩ ∧
    ¬((20000 : ℤ) ≤ 20100 ∧ (20100 : ℤ) ≤ 20000 + 30) ∧
    (∃ fin, calculate_available_funds dbLatePaycheck 20000 "u5" 30 = some fin ∧
      fin.paycheck_expected = 0 ∧
      fin.paycheck_date = some (isoMidnight 20100) ∧
      ∀ opt : CartOptimization, ∃ evts,
        get_payment_calendar dbLatePaycheck 20000 "u5" opt = some evts ∧
        (⟨isoMidnight 20100, "INCOME", "Paycheck", 0, none, none⟩ : Event) ∈ evts) :=
  ⟨rfl, rfl, by norm_num,
    claim_C10 dbLatePaycheck 20000 "u5" dinaProfile ⟨20100, 750⟩ rfl rfl (by norm_num)⟩
